import Mathlib

/-!
Shallow embedding of the content-processing and publishing pipeline in
`src/pages/api/process.ts` (the Next.js API route `POST /api/process`) and of
the form-submission client in `src/pages/index.tsx`.

External collaborators (HTTP fetches, the chat-completion, transcription and
image-generation services, the OAuth token endpoint and the blog API) are
modelled by a `World` record fixing, per request, the outcome each collaborator
would return; the embedded pipeline consumes those outcomes exactly the way the
source consumes the corresponding responses.  Every embedded function also
reports the list of outbound collaborator calls it performed, in order, so that
claims of the form "call X never happens" or "X happens before Y" are statable.

JavaScript-specific behaviour that the source relies on is embedded explicitly:
  * optional request/response fields are `Option`s (`none` = the field is
    absent/`undefined`, and `JSON.stringify` drops it);
  * JS truthiness tests (`!body.text`, `!clientId`, `!b64` ...) are `jsTruthy`:
    a missing value and the empty string are both falsy;
  * the result of `JSON.parse` is a `JsonVal`; a string whose parse throws is
    embedded by the `ChatContent.parseFail` outcome;
  * JS property access `parsed.title` is `jsMember`: it throws a `TypeError`
    on `null`, yields the field on objects, and `undefined` (`none`) otherwise;
  * JS string interpolation of an arbitrary value (`${title}`) is `jsToStr`
    (`undefined` prints as "undefined", objects as "[object Object]").
The source file's own string literals contain literal `?` bytes (mojibake in
the repository); they are reproduced byte-for-byte.
-/

/-- A JSON value, as produced by `JSON.parse`. -/
inductive JsonVal where
  | null
  | bool (b : Bool)
  | num (n : Int)
  | str (s : String)
  | arr (elems : List JsonVal)
  | obj (fields : List (String × JsonVal))

/-- First match in an association list of object fields (`JSON.parse` already
resolves duplicate keys, so the embedded object has at most one binding per
key). -/
def lookupField : List (String × JsonVal) → String → Option JsonVal
  | [], _ => none
  | (k, v) :: rest, key => if k = key then some v else lookupField rest key

mutual

/-- JS string conversion of a value, as performed by template-literal
interpolation: strings verbatim, `null` prints "null", objects print
"[object Object]", arrays join their elements with commas. -/
def jsToStr : JsonVal → String
  | .null => "null"
  | .bool b => if b then "true" else "false"
  | .num n => toString n
  | .str s => s
  | .arr l => jsArrToStr l
  | .obj _ => "[object Object]"

/-- JS `Array.prototype.join` with separator ",": `null` elements print as
the empty string. -/
def jsArrToStr : List JsonVal → String
  | [] => ""
  | [.null] => ""
  | [v] => jsToStr v
  | .null :: rest => "," ++ jsArrToStr rest
  | v :: rest => jsToStr v ++ "," ++ jsArrToStr rest

end

/-- JS string conversion of a possibly-`undefined` value (`${x}` where `x` may
be `undefined`). -/
def jsOptToStr : Option JsonVal → String
  | none => "undefined"
  | some v => jsToStr v

/-- JS truthiness of an optional string: absent and `""` are falsy. -/
def jsTruthy : Option String → Bool
  | none => false
  | some s => !s.isEmpty

/-- JS truthiness of an optional boolean (`body.postToBlogger`). -/
def jsTruthyB : Option Bool → Bool
  | none => false
  | some b => b

/-- JS `a || b` for an optional string against a default (used for
`json.error || res.status` and `data?.error?.message || res.status`). -/
def jsOrDefault (o : Option String) (d : String) : String :=
  match o with
  | none => d
  | some s => if s.isEmpty then d else s

/-- JS `String.prototype.trim`: strip leading and trailing whitespace
(modelled over the string character data so that it evaluates in the
kernel). -/
def jsTrim (s : String) : String :=
  ⟨List.reverse (List.dropWhile Char.isWhitespace
    (List.reverse (List.dropWhile Char.isWhitespace s.data)))⟩

/-- The errors the pipeline can throw; `message` below reproduces the exact
`Error` message strings of the source (`typeError` abbreviates the runtime
TypeError message thrown by `parsed.title` when `parsed` is `null`). -/
inductive Err where
  | fetchLinkFail (status : Nat)
  | fetchAudioFail (status : Nat)
  | sdkError (m : String)
  | jsonParseError (m : String)
  | typeError
  | imageGenFail
  | oauthConfigMissing
  | oauthError (m : String)
  | blogIdMissing
  | bloggerError (m : String)

/-- The `err.message` each error carries, verbatim from the source. -/
def Err.message : Err → String
  | .fetchLinkFail status => "Falha ao buscar link: " ++ toString status
  | .fetchAudioFail status => "Falha ao baixar ?udio: " ++ toString status
  | .sdkError m => m
  | .jsonParseError m => m
  | .typeError => "Cannot read properties of null"
  | .imageGenFail => "Falha ao gerar imagem"
  | .oauthConfigMissing => "Vari?veis GOOGLE_CLIENT_ID/SECRET/REFRESH_TOKEN ausentes"
  | .oauthError m => "OAuth error: " ++ m
  | .blogIdMissing => "BLOGGER_BLOG_ID ausente"
  | .bloggerError m => "Blogger error: " ++ m

/-- One outbound collaborator call, recorded in order of occurrence.
`chatCompletion` records the `input` argument of
`summarizeFinancePortuguese`, `imageGenerate` the `prompt` argument of
`generateImageBase64`, the two fetches their URL. -/
inductive Call where
  | fetchLink (url : String)
  | fetchAudio (url : String)
  | transcribe
  | chatCompletion (input : String)
  | imageGenerate (pr : String)
  | oauthToken
  | blogPost
deriving DecidableEq

/-- Outcome of a raw `fetch`: a non-success HTTP status, or a payload. -/
inductive FetchOutcome (α : Type) where
  | httpFail (status : Nat)
  | ok (a : α)

/-- What the link fetch yields once parsed: the Readability extraction's
`textContent` (`none` when the extraction produced no article or a null
`textContent`) and `document.body.textContent || ''`. -/
structure PageContent where
  article : Option String
  bodyText : String

/-- The chat completion's `choices[0]?.message?.content`, embedded by how
`JSON.parse` treats it: `empty` when the content is missing or `""` (the
source then substitutes the literal `'{}'`, which parses to the empty
object); `parseFail` when `JSON.parse` of the content throws (with the
thrown message); `parsed v` when it parses to the JSON value `v`. -/
inductive ChatContent where
  | empty
  | parseFail (errMsg : String)
  | parsed (v : JsonVal)

/-- OAuth token endpoint outcome: on non-success HTTP status the response
body's optional `error` field and the status; on success an access token. -/
inductive TokenOutcome where
  | httpFail (errField : Option String) (status : Nat)
  | ok (accessToken : String)

/-- Blog post-creation endpoint outcome: on non-success HTTP status the
response's optional `error.message` and the status; on success the created
post's optional `url` and `id`. -/
inductive BlogOutcome where
  | httpFail (errMessage : Option String) (status : Nat)
  | ok (url : Option String) (id : Option String)

/-- Per-request behaviour of every external collaborator.  `Except.error`
in `transcribeResult`, `chatResult`, `imageResult` is an SDK-call rejection
(its message). -/
structure World where
  linkFetch : FetchOutcome PageContent
  audioFetch : FetchOutcome Unit
  transcribeResult : Except String String
  chatResult : Except String ChatContent
  imageResult : Except String (Option String)
  tokenResult : TokenOutcome
  blogResult : BlogOutcome

/-- The environment configuration read by the route (`none` = variable not
set; `some ""` is falsy to the source's `!x` checks, like in JS). -/
structure Config where
  googleClientId : Option String
  googleClientSecret : Option String
  googleRefreshToken : Option String
  bloggerBlogId : Option String

/-- The request body (`InputBody` in the source); absent fields are `none`. -/
structure InputBody where
  type : Option String
  text : Option String
  voiceUrl : Option String
  link : Option String
  postToBlogger : Option Bool

/-- An incoming API request: its method and its (possibly absent) body. -/
structure ApiRequest where
  method : String
  body : Option InputBody

/-- The JSON body of a response: an error object, or the success envelope
`{ title, html, imageDataUrl, bloggerPostUrl }` (fields that are
`undefined` — `none` here — are dropped by `res.json`). -/
inductive RespBody where
  | errorBody (error : String)
  | envelope (title : Option JsonVal) (html : String) (imageDataUrl : String)
      (bloggerPostUrl : Option String)

/-- A response: HTTP status, the `Allow` header if set, and the body. -/
structure ApiResponse where
  status : Nat
  allowHeader : Option String
  body : RespBody

/-- `fetchTextFromLink` (process.ts lines 16-28): fetch the URL; on
non-success status throw; otherwise use the Readability article text when
its trim is non-empty, else the trimmed body text. -/
def fetchTextFromLink (w : World) (url : String) : List Call × Except Err String :=
  match w.linkFetch with
  | .httpFail status => ([.fetchLink url], .error (.fetchLinkFail status))
  | .ok page =>
    ([.fetchLink url],
     .ok (match page.article with
          | some tc => if 0 < (jsTrim tc).length then jsTrim tc
                       else jsTrim page.bodyText
          | none => jsTrim page.bodyText))

/-- `transcribeFromUrl` (lines 30-45): download the audio; on non-success
status throw; otherwise submit the bytes to the transcription service and
return its `text`. -/
def transcribeFromUrl (w : World) (voiceUrl : String) : List Call × Except Err String :=
  match w.audioFetch with
  | .httpFail status => ([.fetchAudio voiceUrl], .error (.fetchAudioFail status))
  | .ok _ =>
    match w.transcribeResult with
    | .error m => ([.fetchAudio voiceUrl, .transcribe], .error (.sdkError m))
    | .ok t => ([.fetchAudio voiceUrl, .transcribe], .ok t)

/-- The pair the summarizer returns: `{ title: parsed.title,
summaryHtml: parsed.html }`, each possibly `undefined`. -/
structure SummaryArtifact where
  title : Option JsonVal
  summaryHtml : Option JsonVal

/-- JS property access on a parsed JSON value: throws a TypeError on `null`,
field lookup on objects, `undefined` otherwise. -/
def jsMember : JsonVal → String → Except Err (Option JsonVal)
  | .null, _ => .error .typeError
  | .obj fs, key => .ok (lookupField fs key)
  | _, _ => .ok none

/-- `summarizeFinancePortuguese` (lines 47-73): one chat-completion call;
`content = choices[0]?.message?.content || '{}'`; `JSON.parse(content)`;
return `{ title: parsed.title, summaryHtml: parsed.html }` with no check
that the keys are present. -/
def summarizeFinancePortuguese (w : World) (input : String) :
    List Call × Except Err SummaryArtifact :=
  ([.chatCompletion input],
   match w.chatResult with
   | .error m => .error (.sdkError m)
   | .ok c =>
     let parsedE : Except Err JsonVal :=
       match c with
       | .empty => .ok (.obj [])
       | .parseFail m => .error (.jsonParseError m)
       | .parsed v => .ok v
     match parsedE with
     | .error e => .error e
     | .ok parsed =>
       match jsMember parsed "title" with
       | .error e => .error e
       | .ok t =>
         match jsMember parsed "html" with
         | .error e => .error e
         | .ok h => .ok ⟨t, h⟩)

/-- `generateImageBase64` (lines 75-86): one image-generation call; throw
`'Falha ao gerar imagem'` when `data?.[0]?.b64_json` is falsy; otherwise
return the data URL `data:image/png;base64,` ++ payload. -/
def generateImageBase64 (w : World) (pr : String) : List Call × Except Err String :=
  ([.imageGenerate pr],
   match w.imageResult with
   | .error m => .error (.sdkError m)
   | .ok b64opt =>
     if jsTruthy b64opt then
       .ok ("data:image/png;base64," ++ b64opt.getD "")
     else
       .error .imageGenFail)

/-- `ensureGoogleAccessToken` (lines 88-109): throw when any of the three
OAuth variables is falsy; otherwise one token-endpoint call, throwing
`OAuth error: json.error || res.status` on non-success. -/
def ensureGoogleAccessToken (cfg : Config) (w : World) : List Call × Except Err String :=
  if !(jsTruthy cfg.googleClientId && jsTruthy cfg.googleClientSecret &&
       jsTruthy cfg.googleRefreshToken) then
    ([], .error .oauthConfigMissing)
  else
    ([.oauthToken],
     match w.tokenResult with
     | .httpFail errField status =>
         .error (.oauthError (jsOrDefault errField (toString status)))
     | .ok accessToken => .ok accessToken)

/-- The publish step's result: the created post's `url` and `id`. -/
structure BlogPostResult where
  url : Option String
  id : Option String

/-- `postToBlogger` (lines 111-134): throw `'BLOGGER_BLOG_ID ausente'` when
the blog id is falsy — this check comes first, before the token exchange;
then obtain an access token; then one post-creation call, throwing
`Blogger error: data?.error?.message || res.status` on non-success. -/
def postToBlogger (cfg : Config) (w : World) (_title : Option JsonVal) (_html : String) :
    List Call × Except Err BlogPostResult :=
  if !(jsTruthy cfg.bloggerBlogId) then
    ([], .error .blogIdMissing)
  else
    match ensureGoogleAccessToken cfg w with
    | (cs, .error e) => (cs, .error e)
    | (cs, .ok _accessToken) =>
      (cs ++ [.blogPost],
       match w.blogResult with
       | .httpFail errMessage status =>
           .error (.bloggerError (jsOrDefault errMessage (toString status)))
       | .ok url id => .ok ⟨url, id⟩)

/-- Outcome of the source-text branch of the handler (lines 146-156): an
early 400 return, a thrown error, or the normalized text. -/
inductive SourceOutcome where
  | clientError (msg : String)
  | failed (e : Err)
  | ok (text : String)

/-- The handler's variant dispatch (lines 146-156): `sourceText` starts as
`''`; variant `text` requires a truthy `body.text`, variant `link` a truthy
`body.link` (then fetches it), variant `voice` a truthy `body.voiceUrl`
(then transcribes it); any other type string leaves `sourceText = ''`. -/
def computeSourceText (w : World) (body : InputBody) : List Call × SourceOutcome :=
  if body.type = some "text" then
    if jsTruthy body.text then ([], .ok (body.text.getD ""))
    else ([], .clientError "Texto ausente")
  else if body.type = some "link" then
    if jsTruthy body.link then
      match fetchTextFromLink w (body.link.getD "") with
      | (cs, .error e) => (cs, .failed e)
      | (cs, .ok s) => (cs, .ok s)
    else ([], .clientError "Link ausente")
  else if body.type = some "voice" then
    if jsTruthy body.voiceUrl then
      match transcribeFromUrl w (body.voiceUrl.getD "") with
      | (cs, .error e) => (cs, .failed e)
      | (cs, .ok s) => (cs, .ok s)
    else ([], .clientError "voiceUrl ausente")
  else ([], .ok "")

/-- The wrapper HTML assembled at lines 161-166: the template literal with
the image div (src = the data URL, alt = the interpolated title) followed by
the interpolated summary fragment, whitespace byte-for-byte. -/
def buildHtml (imageDataUrl title summaryHtml : String) : String :=
  "\n      <div style=\"text-align:center;margin:0 0 16px 0\">\n        <img src=\""
    ++ imageDataUrl ++ "\" alt=\"" ++ title
    ++ "\" style=\"max-width:100%;height:auto\" />\n      </div>\n      "
    ++ summaryHtml ++ "\n    "

/-- The catch-block response (lines 175-178): 500 with
`err.message || 'Erro interno'`. -/
def errorResp (e : Err) : ApiResponse :=
  ⟨500, none, .errorBody (if e.message.isEmpty then "Erro interno" else e.message)⟩

/-- A 400 response with an error body. -/
def badReq (msg : String) : ApiResponse := ⟨400, none, .errorBody msg⟩

/-- `handler` (lines 136-179): 405 + `Allow: POST` for non-POST; 400 when the
body or its `type` is falsy; variant dispatch; summarize; generate image;
assemble the wrapper html; publish only when `body.postToBlogger` is truthy;
200 envelope; every thrown error becomes a 500 via the catch block. -/
def handler (cfg : Config) (w : World) (req : ApiRequest) : List Call × ApiResponse :=
  if req.method ≠ "POST" then
    ([], ⟨405, some "POST", .errorBody "Method not allowed"⟩)
  else
    match req.body with
    | none => ([], badReq "Par?metros inv?lidos")
    | some body =>
      if !(jsTruthy body.type) then ([], badReq "Par?metros inv?lidos")
      else
        match computeSourceText w body with
        | (cs, .clientError msg) => (cs, badReq msg)
        | (cs, .failed e) => (cs, errorResp e)
        | (cs, .ok sourceText) =>
          match summarizeFinancePortuguese w sourceText with
          | (cs2, .error e) => (cs ++ cs2, errorResp e)
          | (cs2, .ok s) =>
            match generateImageBase64 w (jsOptToStr s.title) with
            | (cs3, .error e) => (cs ++ cs2 ++ cs3, errorResp e)
            | (cs3, .ok imageDataUrl) =>
              let html := buildHtml imageDataUrl (jsOptToStr s.title)
                (jsOptToStr s.summaryHtml)
              if jsTruthyB body.postToBlogger then
                match postToBlogger cfg w s.title html with
                | (cs4, .error e) => (cs ++ cs2 ++ cs3 ++ cs4, errorResp e)
                | (cs4, .ok post) =>
                  (cs ++ cs2 ++ cs3 ++ cs4,
                   ⟨200, none, .envelope s.title html imageDataUrl post.url⟩)
              else
                (cs ++ cs2 ++ cs3,
                 ⟨200, none, .envelope s.title html imageDataUrl none⟩)

/-- The request the client's `handleSubmit` (index.tsx lines 12-28) issues:
`fetch('/api/process', { method: 'POST', body: ... })`. -/
structure FetchRequest where
  url : String
  method : String
  body : InputBody

/-- `handleSubmit` serialization (index.tsx lines 18-27): each variant field
is its state value when that variant is selected and `undefined` otherwise
(so `JSON.stringify` drops it); `postToBlogger` is always `true`. -/
def handleSubmit (inputType text voiceUrl link : String) : FetchRequest :=
  { url := "/api/process"
    method := "POST"
    body :=
      { type := some inputType
        text := if inputType = "text" then some text else none
        voiceUrl := if inputType = "voice" then some voiceUrl else none
        link := if inputType = "link" then some link else none
        postToBlogger := some true } }

/-! ### Helper lemmas -/

/-- The variant-dispatch step only performs fetch/transcription calls. -/
lemma computeSourceText_calls (w : World) (b : InputBody) (c : Call)
    (hc : c ∈ (computeSourceText w b).1) :
    (∃ u, c = .fetchLink u) ∨ (∃ u, c = .fetchAudio u) ∨ c = .transcribe := by
  unfold computeSourceText fetchTextFromLink transcribeFromUrl at hc
  by_cases h1 : b.type = some "text"
  · simp [h1] at hc
    rcases hj : jsTruthy b.text <;> simp [hj] at hc
  · by_cases h2 : b.type = some "link"
    · simp [h1, h2] at hc
      rcases hj : jsTruthy b.link <;> simp [hj] at hc
      rcases hl : w.linkFetch with st | page <;> simp [hl] at hc <;>
        exact Or.inl ⟨_, hc⟩
    · by_cases h3 : b.type = some "voice"
      · simp [h1, h2, h3] at hc
        rcases hj : jsTruthy b.voiceUrl <;> simp [hj] at hc
        rcases ha : w.audioFetch with st | u <;> simp [ha] at hc
        · exact Or.inr (Or.inl ⟨_, hc⟩)
        · rcases htr : w.transcribeResult with m | tr <;> simp [htr] at hc <;>
            rcases hc with hc | hc
          · exact Or.inr (Or.inl ⟨_, hc⟩)
          · exact Or.inr (Or.inr hc)
          · exact Or.inr (Or.inl ⟨_, hc⟩)
          · exact Or.inr (Or.inr hc)
      · simp [h1, h2, h3] at hc

/-- The summarizer performs exactly one chat-completion call, on its input. -/
lemma summarize_calls (w : World) (input : String) :
    (summarizeFinancePortuguese w input).1 = [.chatCompletion input] := rfl

/-- The illustrator performs exactly one image-generation call. -/
lemma generateImage_calls (w : World) (pr : String) :
    (generateImageBase64 w pr).1 = [.imageGenerate pr] := rfl

/-- The token-exchange step performs no call when the credentials check
fails, and exactly the token-endpoint call otherwise. -/
lemma ensure_calls (cfg : Config) (w : World) :
    (ensureGoogleAccessToken cfg w).1 = [] ∨
    (ensureGoogleAccessToken cfg w).1 = [Call.oauthToken] := by
  unfold ensureGoogleAccessToken
  split
  · exact Or.inl rfl
  · exact Or.inr rfl

/-- The token-exchange step either fails at the credentials check with no
call, or performs exactly the token-endpoint call. -/
lemma ensure_spec (cfg : Config) (w : World) :
    ensureGoogleAccessToken cfg w = ([], .error .oauthConfigMissing) ∨
    (ensureGoogleAccessToken cfg w).1 = [Call.oauthToken] := by
  unfold ensureGoogleAccessToken
  split
  · exact Or.inl rfl
  · exact Or.inr rfl

/-- The publish step only performs token-exchange and post-creation calls. -/
lemma postToBlogger_calls (cfg : Config) (w : World) (t : Option JsonVal) (h : String)
    (c : Call) (hc : c ∈ (postToBlogger cfg w t h).1) :
    c = .oauthToken ∨ c = .blogPost := by
  unfold postToBlogger at hc
  split at hc
  · simp at hc
  · have hcs := ensure_calls cfg w
    rcases he : ensureGoogleAccessToken cfg w with ⟨cs, r⟩
    rw [he] at hc hcs
    simp only at hcs
    rcases r with e | tok <;> simp only at hc
    · rcases hcs with h1 | h1 <;> subst h1 <;> simp at hc
      exact Or.inl hc
    · simp at hc
      rcases hc with hc | hc
      · rcases hcs with h1 | h1 <;> subst h1 <;> simp at hc
        exact Or.inl hc
      · exact Or.inr hc

/-! ### Claims -/

/-- C9: for every request whose method is not POST, the handler returns
status 405 with an error body, sets the `Allow` header to POST, and no
pipeline step runs (no collaborator call is made). -/
theorem C9_non_post_rejected (cfg : Config) (w : World) (req : ApiRequest)
    (h : req.method ≠ "POST") :
    handler cfg w req =
      ([], ⟨405, some "POST", .errorBody "Method not allowed"⟩) := by
  simp [handler, h]

/-- C9 witness: a concrete GET request is answered 405 / `Allow: POST` with
no calls. -/
theorem C9_non_post_rejected_witness :
    handler ⟨none, none, none, none⟩
      ⟨.httpFail 0, .httpFail 0, .error "", .error "", .error "",
        .httpFail none 0, .httpFail none 0⟩
      ⟨"GET", none⟩ =
      ([], ⟨405, some "POST", .errorBody "Method not allowed"⟩) :=
  C9_non_post_rejected _ _ _ (by decide)

/-- C5: a POST whose variant-specific required payload field is missing
(`text` absent under type "text", `link` absent under "link", `voiceUrl`
absent under "voice") is answered 400 with the validation message and no
pipeline step runs (no collaborator call is made). -/
theorem C5_missing_variant_field (cfg : Config) (w : World)
    (b1 b2 b3 : InputBody)
    (h1t : b1.type = some "text") (h1 : b1.text = none)
    (h2t : b2.type = some "link") (h2 : b2.link = none)
    (h3t : b3.type = some "voice") (h3 : b3.voiceUrl = none) :
    handler cfg w ⟨"POST", some b1⟩ = ([], badReq "Texto ausente") ∧
    handler cfg w ⟨"POST", some b2⟩ = ([], badReq "Link ausente") ∧
    handler cfg w ⟨"POST", some b3⟩ = ([], badReq "voiceUrl ausente") := by
  refine ⟨?_, ?_, ?_⟩ <;>
    simp [handler, computeSourceText, jsTruthy, h1t, h1, h2t, h2, h3t, h3] <;>
    intro hh <;> exact absurd hh (by decide)

/-- C5 witness: the three concrete malformed bodies each get their 400. -/
theorem C5_missing_variant_field_witness :
    handler ⟨none, none, none, none⟩
      ⟨.httpFail 0, .httpFail 0, .error "", .error "", .error "",
        .httpFail none 0, .httpFail none 0⟩
      ⟨"POST", some ⟨some "text", none, none, none, none⟩⟩ =
      ([], badReq "Texto ausente") :=
  (C5_missing_variant_field _ _
    ⟨some "text", none, none, none, none⟩
    ⟨some "link", none, none, none, none⟩
    ⟨some "voice", none, none, none, none⟩
    rfl rfl rfl rfl rfl rfl).1

/-- C6: for the link variant with a successful fetch, a readability
extraction whose trimmed text is non-empty is returned trimmed; an
extraction that is absent or trims to empty (empty or whitespace-only)
falls back to the trimmed full body text. -/
theorem C6_link_extraction (w : World) (url : String) (page : PageContent)
    (hw : w.linkFetch = .ok page) :
    (∀ a, page.article = some a → 0 < (jsTrim a).length →
        fetchTextFromLink w url = ([.fetchLink url], .ok (jsTrim a))) ∧
    (∀ a, page.article = some a → (jsTrim a).length = 0 →
        fetchTextFromLink w url =
          ([.fetchLink url], .ok (jsTrim page.bodyText))) ∧
    (page.article = none →
        fetchTextFromLink w url =
          ([.fetchLink url], .ok (jsTrim page.bodyText))) := by
  refine ⟨?_, ?_, ?_⟩
  · intro a ha hlen
    simp [fetchTextFromLink, hw, ha, hlen]
  · intro a ha hlen
    simp [fetchTextFromLink, hw, ha, hlen]
  · intro hnone
    simp [fetchTextFromLink, hw, hnone]

/-- C6 witness: a page whose extraction is whitespace-only falls back to
the trimmed body text. -/
theorem C6_link_extraction_witness :
    fetchTextFromLink
      ⟨.ok ⟨some "  ", " corpo da p?gina "⟩, .httpFail 0, .error "",
        .error "", .error "", .httpFail none 0, .httpFail none 0⟩
      "https://example.com" =
      ([.fetchLink "https://example.com"], .ok "corpo da p?gina") :=
  (C6_link_extraction _ "https://example.com" ⟨some "  ", " corpo da p?gina "⟩
    rfl).2.1 "  " rfl (by decide)

/-- C10: on submit the client sends a POST to `/api/process` whose body
always sets `postToBlogger` to true and carries only the payload field of
the selected variant (the other two are absent). -/
theorem C10_client_submission (it t v l : String) :
    (handleSubmit it t v l).url = "/api/process" ∧
    (handleSubmit it t v l).method = "POST" ∧
    (handleSubmit it t v l).body.postToBlogger = some true ∧
    (it = "text" →
      (handleSubmit it t v l).body = ⟨some it, some t, none, none, some true⟩) ∧
    (it = "voice" →
      (handleSubmit it t v l).body = ⟨some it, none, some v, none, some true⟩) ∧
    (it = "link" →
      (handleSubmit it t v l).body = ⟨some it, none, none, some l, some true⟩) := by
  refine ⟨rfl, rfl, rfl, ?_, ?_, ?_⟩ <;> intro h <;> subst h <;> simp [handleSubmit]

/-- C10 witness: a concrete text-variant submission. -/
theorem C10_client_submission_witness :
    (handleSubmit "text" "conte?do" "" "").body =
      ⟨some "text", some "conte?do", none, none, some true⟩ :=
  (C10_client_submission "text" "conte?do" "" "").2.2.2.1 rfl

/-- C2 counterexample: with the blog identifier missing but all three OAuth
credentials present, the publish step throws the blog-id ConfigError having
made no call at all — in particular the token exchange has NOT been
performed, contradicting the claim that the ConfigError arises after the
token exchange. -/
theorem C2_counterexample :
    postToBlogger ⟨some "cid", some "csec", some "rtok", none⟩
      ⟨.httpFail 0, .httpFail 0, .error "", .error "", .error "",
        .ok "tok", .ok (some "u") (some "i")⟩
      none "" = ([], .error .blogIdMissing) ∧
    Call.oauthToken ∉
      (postToBlogger ⟨some "cid", some "csec", some "rtok", none⟩
        ⟨.httpFail 0, .httpFail 0, .error "", .error "", .error "",
          .ok "tok", .ok (some "u") (some "i")⟩
        none "").1 :=
  ⟨rfl, by decide⟩

/-- C2 (amended): publishing does exchange the token before the
post-creation call (whenever the post-creation call happens, the call
sequence is exactly token exchange then post creation), but a missing blog
identifier raises the ConfigError BEFORE the token exchange: the blog-id
check is the first thing the publish step does and nothing is called. -/
theorem C2_publish_protocol (cfg : Config) (w : World) (t : Option JsonVal)
    (h : String) :
    (jsTruthy cfg.bloggerBlogId = false →
        postToBlogger cfg w t h = ([], .error .blogIdMissing)) ∧
    (Call.blogPost ∈ (postToBlogger cfg w t h).1 →
        (postToBlogger cfg w t h).1 = [Call.oauthToken, Call.blogPost]) := by
  constructor
  · intro hmiss
    simp [postToBlogger, hmiss]
  · intro hmem
    unfold postToBlogger at hmem ⊢
    by_cases hblog : (!jsTruthy cfg.bloggerBlogId) = true
    · rw [if_pos hblog] at hmem
      simp at hmem
    · rw [if_neg hblog] at hmem ⊢
      rcases he : ensureGoogleAccessToken cfg w with ⟨cs, r⟩
      rw [he] at hmem
      rcases r with e | tok
      · rcases ensure_calls cfg w with h1 | h1 <;> rw [he] at h1
        · have h2 : cs = [] := h1
          subst h2
          exact absurd (show Call.blogPost ∈ ([] : List Call) from hmem)
            (by decide)
        · have h2 : cs = [Call.oauthToken] := h1
          subst h2
          exact absurd (show Call.blogPost ∈ [Call.oauthToken] from hmem)
            (by decide)
      · rcases ensure_spec cfg w with h1 | h1
        · rw [he] at h1
          simp at h1
        · rw [he] at h1
          have h2 : cs = [Call.oauthToken] := h1
          subst h2
          rfl

/-- C2 witness: with full configuration and a successful token exchange,
the publish step's call sequence is token exchange then post creation; and
at a blog-id-less configuration the step returns the ConfigError with no
calls. -/
theorem C2_publish_protocol_witness :
    postToBlogger ⟨some "cid", some "csec", some "rtok", none⟩
      ⟨.httpFail 0, .httpFail 0, .error "", .error "", .error "",
        .ok "tok", .ok (some "u") (some "i")⟩
      none "x" = ([], .error .blogIdMissing) :=
  (C2_publish_protocol _ _ none "x").1 rfl

/-- A non-empty string is not `isEmpty`. -/
lemma isEmptyFalse {s : String} (h : s ≠ "") : s.isEmpty = false := by
  cases hbe : s.isEmpty
  · rfl
  · exact absurd ((String.isEmpty_iff s).mp hbe) h

/-- `jsTruthyB` holds exactly on `some true`. -/
lemma jsTruthyB_some_true (o : Option Bool) : jsTruthyB o = true ↔ o = some true := by
  cases o with
  | none => simp [jsTruthyB]
  | some b => cases b <;> simp [jsTruthyB]

/-- A successful publish means the blog endpoint answered success with
exactly the returned url/id. -/
lemma postToBlogger_ok_inv (cfg : Config) (w : World) (t : Option JsonVal)
    (h : String) (cs : List Call) (post : BlogPostResult)
    (hp : postToBlogger cfg w t h = (cs, .ok post)) :
    w.blogResult = .ok post.url post.id := by
  unfold postToBlogger at hp
  split at hp
  · simp at hp
  · rcases he : ensureGoogleAccessToken cfg w with ⟨cs0, r0⟩
    rw [he] at hp
    rcases r0 with e | tok
    · simp at hp
    · rcases hb : w.blogResult with ⟨em, st⟩ | ⟨url, pid⟩ <;> rw [hb] at hp <;>
        simp at hp
      rw [← hp.2]

/-- The handler on a POST request with a truthy `type`, written as the
explicit pipeline over the collaborator outcomes. -/
lemma handler_post (cfg : Config) (w : World) (body : InputBody)
    (hty : jsTruthy body.type = true) :
    handler cfg w ⟨"POST", some body⟩ =
      (match computeSourceText w body with
       | (cs, .clientError msg) => (cs, badReq msg)
       | (cs, .failed e) => (cs, errorResp e)
       | (cs, .ok sourceText) =>
         match summarizeFinancePortuguese w sourceText with
         | (cs2, .error e) => (cs ++ cs2, errorResp e)
         | (cs2, .ok s) =>
           match generateImageBase64 w (jsOptToStr s.title) with
           | (cs3, .error e) => (cs ++ cs2 ++ cs3, errorResp e)
           | (cs3, .ok imageDataUrl) =>
             if jsTruthyB body.postToBlogger then
               match postToBlogger cfg w s.title
                   (buildHtml imageDataUrl (jsOptToStr s.title)
                     (jsOptToStr s.summaryHtml)) with
               | (cs4, .error e) => (cs ++ cs2 ++ cs3 ++ cs4, errorResp e)
               | (cs4, .ok post) =>
                 (cs ++ cs2 ++ cs3 ++ cs4,
                  ⟨200, none,
                   .envelope s.title
                     (buildHtml imageDataUrl (jsOptToStr s.title)
                       (jsOptToStr s.summaryHtml))
                     imageDataUrl post.url⟩)
             else
               (cs ++ cs2 ++ cs3,
                ⟨200, none,
                 .envelope s.title
                   (buildHtml imageDataUrl (jsOptToStr s.title)
                     (jsOptToStr s.summaryHtml))
                   imageDataUrl none⟩)) := by
  simp [handler, hty]

/-- C1 counterexample: a chat content that IS valid JSON but lacks both
`title` and `html` (the empty object) does not produce a 500 at the
summarization step — the request succeeds with status 200 and the
image-generation call IS made (with the stringified undefined title),
refuting the claim for the missing-key case. -/
theorem C1_counterexample :
    (handler ⟨none, none, none, none⟩
        ⟨.httpFail 0, .httpFail 0, .error "", .ok (.parsed (.obj [])),
          .ok (some "B"), .httpFail none 0, .httpFail none 0⟩
        ⟨"POST", some ⟨some "text", some "x", none, none, none⟩⟩).2.status
      = 200 ∧
    Call.imageGenerate "undefined" ∈
      (handler ⟨none, none, none, none⟩
        ⟨.httpFail 0, .httpFail 0, .error "", .ok (.parsed (.obj [])),
          .ok (some "B"), .httpFail none 0, .httpFail none 0⟩
        ⟨"POST", some ⟨some "text", some "x", none, none, none⟩⟩).1 := by
  constructor
  · rfl
  · decide

/-- C1 (amended): for every request that reaches the summarization step, a
chat-completion content that is not valid JSON yields a 500 and no
image-generation call; but a content that parses as a JSON object (even one
lacking `title`/`html`) does NOT fail the summarization step — the pipeline
continues and the image-generation call is made. -/
theorem C1_summarizer_json (cfg : Config) (w w' : World)
    (body body' : InputBody) (cs cs' : List Call) (st st' : String)
    (hty : jsTruthy body.type = true)
    (hcst : computeSourceText w body = (cs, .ok st))
    (m : String) (hw : w.chatResult = .ok (.parseFail m))
    (hty' : jsTruthy body'.type = true)
    (hcst' : computeSourceText w' body' = (cs', .ok st'))
    (fs : List (String × JsonVal))
    (hw' : w'.chatResult = .ok (.parsed (.obj fs))) :
    ((handler cfg w ⟨"POST", some body⟩).2.status = 500 ∧
     ∀ p, Call.imageGenerate p ∉ (handler cfg w ⟨"POST", some body⟩).1) ∧
    ∃ p, Call.imageGenerate p ∈ (handler cfg w' ⟨"POST", some body'⟩).1 := by
  constructor
  · have hsum : summarizeFinancePortuguese w st =
        ([Call.chatCompletion st], .error (.jsonParseError m)) := by
      simp [summarizeFinancePortuguese, hw]
    rw [handler_post cfg w body hty, hcst]
    dsimp only
    rw [hsum]
    constructor
    · rfl
    · intro p hp
      rw [List.mem_append] at hp
      rcases hp with hp | hp
      · rcases computeSourceText_calls w body (Call.imageGenerate p)
            (by rw [hcst]; exact hp)
          with ⟨u, hu⟩ | ⟨u, hu⟩ | hu <;> exact Call.noConfusion hu
      · rw [List.mem_singleton] at hp
        exact Call.noConfusion hp
  · have hsum' : summarizeFinancePortuguese w' st' =
        ([Call.chatCompletion st'],
         .ok ⟨lookupField fs "title", lookupField fs "html"⟩) := by
      simp [summarizeFinancePortuguese, hw', jsMember]
    rw [handler_post cfg w' body' hty', hcst']
    dsimp only
    rw [hsum']
    dsimp only
    refine ⟨jsOptToStr (lookupField fs "title"), ?_⟩
    rcases hgen : generateImageBase64 w' (jsOptToStr (lookupField fs "title"))
      with ⟨cs3, r3⟩
    have hcs3 : cs3 = [Call.imageGenerate (jsOptToStr (lookupField fs "title"))] := by
      have hg := generateImage_calls w' (jsOptToStr (lookupField fs "title"))
      rw [hgen] at hg
      exact hg
    subst hcs3
    rcases r3 with e | img
    · simp
    · dsimp only
      by_cases hpb : jsTruthyB body'.postToBlogger = true
      · rw [if_pos hpb]
        rcases hpost : postToBlogger cfg w' (lookupField fs "title")
            (buildHtml img (jsOptToStr (lookupField fs "title"))
              (jsOptToStr (lookupField fs "html")))
          with ⟨cs4, r4⟩
        rcases r4 with e | post <;> simp
      · rw [if_neg hpb]
        simp

/-- C1 amended-claim witness: at a concrete request, invalid JSON gives a
500 with no image call. -/
theorem C1_summarizer_json_witness :
    (handler ⟨none, none, none, none⟩
        ⟨.httpFail 0, .httpFail 0, .error "", .ok (.parseFail "Unexpected token"),
          .error "", .httpFail none 0, .httpFail none 0⟩
        ⟨"POST", some ⟨some "text", some "x", none, none, none⟩⟩).2.status
      = 500 :=
  (C1_summarizer_json ⟨none, none, none, none⟩
    ⟨.httpFail 0, .httpFail 0, .error "", .ok (.parseFail "Unexpected token"),
      .error "", .httpFail none 0, .httpFail none 0⟩
    ⟨.httpFail 0, .httpFail 0, .error "", .ok (.parsed (.obj [])),
      .error "", .httpFail none 0, .httpFail none 0⟩
    ⟨some "text", some "x", none, none, none⟩
    ⟨some "text", some "x", none, none, none⟩
    [] [] "x" "x" (by decide) rfl "Unexpected token" rfl (by decide) rfl
    [] rfl).1.1

/-- C3: with publishing requested and any of the three OAuth credentials
falsy, a request that reaches the publish step gets a 500 whose message is
a configuration-error message (the OAuth-variables message, or the blog-id
message when the blog id is also falsy — the blog-id check runs first), and
the post-creation call is never attempted. -/
theorem C3_missing_oauth_config (cfg : Config) (w : World) (txt : String)
    (ht : txt ≠ "")
    (fs : List (String × JsonVal))
    (hchat : w.chatResult = .ok (.parsed (.obj fs)))
    (b64 : String) (hb64 : b64 ≠ "")
    (himg : w.imageResult = .ok (some b64))
    (hcred : jsTruthy cfg.googleClientId = false ∨
             jsTruthy cfg.googleClientSecret = false ∨
             jsTruthy cfg.googleRefreshToken = false) :
    (handler cfg w
        ⟨"POST", some ⟨some "text", some txt, none, none, some true⟩⟩).2.status
      = 500 ∧
    ((handler cfg w
        ⟨"POST", some ⟨some "text", some txt, none, none, some true⟩⟩).2.body =
        .errorBody "Vari?veis GOOGLE_CLIENT_ID/SECRET/REFRESH_TOKEN ausentes" ∨
     (handler cfg w
        ⟨"POST", some ⟨some "text", some txt, none, none, some true⟩⟩).2.body =
        .errorBody "BLOGGER_BLOG_ID ausente") ∧
    Call.blogPost ∉
      (handler cfg w
        ⟨"POST", some ⟨some "text", some txt, none, none, some true⟩⟩).1 := by
  have hty : jsTruthy (some "text") = true := by decide
  have hte : txt.isEmpty = false := isEmptyFalse ht
  have hcst : computeSourceText w ⟨some "text", some txt, none, none, some true⟩
      = ([], .ok txt) := by
    simp [computeSourceText, jsTruthy, hte]
  have hsum : summarizeFinancePortuguese w txt =
      ([Call.chatCompletion txt],
       .ok ⟨lookupField fs "title", lookupField fs "html"⟩) := by
    simp [summarizeFinancePortuguese, hchat, jsMember]
  have hb64e : b64.isEmpty = false := isEmptyFalse hb64
  have hgen : generateImageBase64 w (jsOptToStr (lookupField fs "title")) =
      ([Call.imageGenerate (jsOptToStr (lookupField fs "title"))],
       .ok ("data:image/png;base64," ++ b64)) := by
    simp [generateImageBase64, himg, jsTruthy, hb64e]
  have hens : ensureGoogleAccessToken cfg w = ([], .error .oauthConfigMissing) := by
    rcases hcred with h | h | h <;> simp [ensureGoogleAccessToken, h]
  rw [handler_post cfg w _ hty, hcst]
  dsimp only
  rw [hsum]
  dsimp only
  rw [hgen]
  dsimp only
  rw [if_pos (show jsTruthyB (some true) = true from rfl)]
  by_cases hblog : jsTruthy cfg.bloggerBlogId = true
  · have hpost : postToBlogger cfg w (lookupField fs "title")
        (buildHtml ("data:image/png;base64," ++ b64)
          (jsOptToStr (lookupField fs "title"))
          (jsOptToStr (lookupField fs "html"))) =
        ([], .error .oauthConfigMissing) := by
      simp [postToBlogger, hblog, hens]
    rw [hpost]
    refine ⟨rfl, Or.inl rfl, ?_⟩
    simp
  · have hb2 : jsTruthy cfg.bloggerBlogId = false := by
      cases h2 : jsTruthy cfg.bloggerBlogId
      · rfl
      · exact absurd h2 hblog
    have hpost : postToBlogger cfg w (lookupField fs "title")
        (buildHtml ("data:image/png;base64," ++ b64)
          (jsOptToStr (lookupField fs "title"))
          (jsOptToStr (lookupField fs "html"))) =
        ([], .error .blogIdMissing) := by
      simp [postToBlogger, hb2]
    rw [hpost]
    refine ⟨rfl, Or.inr rfl, ?_⟩
    simp

/-- C3 witness: a concrete configuration missing `GOOGLE_CLIENT_ID` gives
the 500 at a concrete publishing request. -/
theorem C3_missing_oauth_config_witness :
    (handler ⟨none, some "sec", some "ref", some "blog"⟩
        ⟨.httpFail 0, .httpFail 0, .error "",
          .ok (.parsed (.obj [("title", .str "T"), ("html", .str "H")])),
          .ok (some "B"), .ok "tok", .ok (some "u") (some "i")⟩
        ⟨"POST", some ⟨some "text", some "x", none, none, some true⟩⟩).2.status
      = 500 :=
  (C3_missing_oauth_config ⟨none, some "sec", some "ref", some "blog"⟩
    ⟨.httpFail 0, .httpFail 0, .error "",
      .ok (.parsed (.obj [("title", .str "T"), ("html", .str "H")])),
      .ok (some "B"), .ok "tok", .ok (some "u") (some "i")⟩
    "x" (by decide) [("title", .str "T"), ("html", .str "H")] rfl
    "B" (by decide) rfl (Or.inl rfl)).1

/-- C7: a non-empty `type` other than "text"/"link"/"voice" is not
rejected with a 400; the pipeline proceeds with the empty string as the
normalized content and the summarizer is invoked on it. -/
theorem C7_unknown_type (cfg : Config) (w : World) (b : InputBody) (ty : String)
    (htyeq : b.type = some ty) (h0 : ty ≠ "") (h1 : ty ≠ "text")
    (h2 : ty ≠ "link") (h3 : ty ≠ "voice") :
    (handler cfg w ⟨"POST", some b⟩).2.status ≠ 400 ∧
    Call.chatCompletion "" ∈ (handler cfg w ⟨"POST", some b⟩).1 := by
  have hty : jsTruthy b.type = true := by
    rw [htyeq]
    simp [jsTruthy, isEmptyFalse h0]
  have hcst : computeSourceText w b = ([], .ok "") := by
    simp [computeSourceText, htyeq, h1, h2, h3]
  rw [handler_post cfg w b hty, hcst]
  dsimp only
  rcases hsum : summarizeFinancePortuguese w "" with ⟨cs2, r2⟩
  have hcs2 : cs2 = [Call.chatCompletion ""] := by
    have hs := summarize_calls w ""
    rw [hsum] at hs
    exact hs
  subst hcs2
  rcases r2 with e | s
  · exact ⟨by simp [errorResp], by simp⟩
  · dsimp only
    rcases hgen : generateImageBase64 w (jsOptToStr s.title) with ⟨cs3, r3⟩
    rcases r3 with e | img
    · exact ⟨by simp [errorResp], by simp⟩
    · dsimp only
      by_cases hpb : jsTruthyB b.postToBlogger = true
      · rw [if_pos hpb]
        rcases hpost : postToBlogger cfg w s.title
            (buildHtml img (jsOptToStr s.title) (jsOptToStr s.summaryHtml))
          with ⟨cs4, r4⟩
        rcases r4 with e | post
        · exact ⟨by simp [errorResp], by simp⟩
        · exact ⟨by simp, by simp⟩
      · rw [if_neg hpb]
        exact ⟨by simp, by simp⟩

/-- C7 witness: `type: "audio"` (unknown) is not rejected and the
summarizer is invoked on the empty string. -/
theorem C7_unknown_type_witness :
    Call.chatCompletion "" ∈
      (handler ⟨none, none, none, none⟩
        ⟨.httpFail 0, .httpFail 0, .error "", .error "", .error "",
          .httpFail none 0, .httpFail none 0⟩
        ⟨"POST", some ⟨some "audio", none, none, none, none⟩⟩).1 :=
  (C7_unknown_type ⟨none, none, none, none⟩
    ⟨.httpFail 0, .httpFail 0, .error "", .error "", .error "",
      .httpFail none 0, .httpFail none 0⟩
    ⟨some "audio", none, none, none, none⟩ "audio" rfl (by decide) (by decide)
    (by decide) (by decide)).2

/-- The wrapper html is strictly longer than the embedded summary fragment
(the wrapper adds a non-empty prefix). -/
lemma buildHtml_longer (i a s : String) : s.length < (buildHtml i a s).length := by
  have h1 : (0 : Nat) <
      ("\n      <div style=\"text-align:center;margin:0 0 16px 0\">\n        <img src=\"").length := by
    decide
  simp [buildHtml, String.length_append]
  omega

/-- Inversion of a success envelope: it can only arise from the 200 branches,
so there is a summary artifact that the summarizer returns (its result
depends only on the chat outcome, not on its input), the envelope `title`
is that artifact's title, the `html` is the wrapper built from the
`imageDataUrl` and the stringified title around that artifact's stringified
`summaryHtml` fragment, and the `bloggerPostUrl` is `none` when publishing
was not requested and the blog endpoint's returned url when it was
requested and succeeded. -/
lemma handler_envelope_inv (cfg : Config) (w : World) (req : ApiRequest)
    (t : Option JsonVal) (h i : String) (u : Option String)
    (henv : (handler cfg w req).2.body = .envelope t h i u) :
    (∃ body, req.body = some body ∧
      ((jsTruthyB body.postToBlogger = false ∧ u = none) ∨
       (jsTruthyB body.postToBlogger = true ∧
        ∃ pid, w.blogResult = .ok u pid))) ∧
    ∃ s : SummaryArtifact,
      (∀ input, (summarizeFinancePortuguese w input).2 = Except.ok s) ∧
      t = s.title ∧
      h = buildHtml i (jsOptToStr s.title) (jsOptToStr s.summaryHtml) := by
  rcases req with ⟨mth, ob⟩
  by_cases hm : mth = "POST"
  · subst hm
    cases ob with
    | none => simp [handler, badReq] at henv
    | some body =>
      by_cases hjt : jsTruthy body.type = true
      · rw [handler_post cfg w body hjt] at henv
        rcases hcst : computeSourceText w body with ⟨cs, oc⟩
        rw [hcst] at henv
        rcases oc with msg | e | st
        · simp [badReq] at henv
        · simp [errorResp] at henv
        · dsimp only at henv
          rcases hsum : summarizeFinancePortuguese w st with ⟨cs2, r2⟩
          rw [hsum] at henv
          rcases r2 with e | s
          · simp [errorResp] at henv
          · dsimp only at henv
            rcases hgen : generateImageBase64 w (jsOptToStr s.title) with ⟨cs3, r3⟩
            rw [hgen] at henv
            rcases r3 with e | img
            · simp [errorResp] at henv
            · dsimp only at henv
              by_cases hpb : jsTruthyB body.postToBlogger = true
              · rw [if_pos hpb] at henv
                rcases hpost : postToBlogger cfg w s.title
                    (buildHtml img (jsOptToStr s.title) (jsOptToStr s.summaryHtml))
                  with ⟨cs4, r4⟩
                rw [hpost] at henv
                rcases r4 with e | post
                · simp [errorResp] at henv
                · dsimp only at henv
                  injection henv with e1 e2 e3 e4
                  have hins : ∀ input,
                      (summarizeFinancePortuguese w input).2 = Except.ok s := by
                    intro input
                    have h2 : (summarizeFinancePortuguese w st).2 = Except.ok s := by
                      rw [hsum]
                    exact h2
                  refine ⟨⟨body, rfl, Or.inr ⟨hpb, post.id, ?_⟩⟩,
                    ⟨s, hins, e1.symm, ?_⟩⟩
                  · rw [← e4]
                    exact postToBlogger_ok_inv cfg w s.title _ cs4 post hpost
                  · rw [← e2, e3]
              · rw [if_neg hpb] at henv
                dsimp only at henv
                injection henv with e1 e2 e3 e4
                have hpb2 : jsTruthyB body.postToBlogger = false := by
                  cases hx : jsTruthyB body.postToBlogger
                  · rfl
                  · exact absurd hx hpb
                have hins : ∀ input,
                    (summarizeFinancePortuguese w input).2 = Except.ok s := by
                  intro input
                  have h2 : (summarizeFinancePortuguese w st).2 = Except.ok s := by
                    rw [hsum]
                  exact h2
                refine ⟨⟨body, rfl, Or.inl ⟨hpb2, by rw [← e4]⟩⟩,
                  ⟨s, hins, e1.symm, by rw [← e2, e3]⟩⟩
      · have hjf : jsTruthy body.type = false := by
          cases hx : jsTruthy body.type
          · rfl
          · exact absurd hx hjt
        simp [handler, hjf, badReq] at henv
  · simp [handler, hm] at henv

/-- When the body does not request publishing, no call of the run is the
token exchange or the post creation. -/
lemma handler_no_publish_calls (cfg : Config) (w : World) (mth : String)
    (body : InputBody) (hpb : jsTruthyB body.postToBlogger = false) (c : Call)
    (hc : c ∈ (handler cfg w ⟨mth, some body⟩).1) :
    c ≠ .oauthToken ∧ c ≠ .blogPost := by
  by_cases hm : mth = "POST"
  · subst hm
    by_cases hjt : jsTruthy body.type = true
    · rw [handler_post cfg w body hjt] at hc
      rcases hcst : computeSourceText w body with ⟨cs, oc⟩
      rw [hcst] at hc
      have hcs : ∀ c', c' ∈ cs → c' ≠ Call.oauthToken ∧ c' ≠ Call.blogPost := by
        intro c' hc'
        rcases computeSourceText_calls w body c' (by rw [hcst]; exact hc')
          with ⟨u2, hu⟩ | ⟨u2, hu⟩ | hu <;> subst hu <;>
          exact ⟨by simp, by simp⟩
      rcases oc with msg | e | st
      · exact hcs c hc
      · exact hcs c hc
      · dsimp only at hc
        rcases hsum : summarizeFinancePortuguese w st with ⟨cs2, r2⟩
        rw [hsum] at hc
        have hcs2 : cs2 = [Call.chatCompletion st] := by
          have hq := summarize_calls w st
          rw [hsum] at hq
          exact hq
        subst hcs2
        rcases r2 with e | s
        · dsimp only at hc
          rw [List.mem_append] at hc
          rcases hc with hc | hc
          · exact hcs c hc
          · rw [List.mem_singleton] at hc
            subst hc
            exact ⟨by simp, by simp⟩
        · dsimp only at hc
          rcases hgen : generateImageBase64 w (jsOptToStr s.title) with ⟨cs3, r3⟩
          rw [hgen] at hc
          have hcs3 : cs3 = [Call.imageGenerate (jsOptToStr s.title)] := by
            have hq := generateImage_calls w (jsOptToStr s.title)
            rw [hgen] at hq
            exact hq
          subst hcs3
          have hmem3 : c ∈ cs ++ [Call.chatCompletion st] ++
              [Call.imageGenerate (jsOptToStr s.title)] →
              c ≠ Call.oauthToken ∧ c ≠ Call.blogPost := by
            intro hx
            rw [List.mem_append] at hx
            rcases hx with hx | hx
            · rw [List.mem_append] at hx
              rcases hx with hx | hx
              · exact hcs c hx
              · rw [List.mem_singleton] at hx
                subst hx
                exact ⟨by simp, by simp⟩
            · rw [List.mem_singleton] at hx
              subst hx
              exact ⟨by simp, by simp⟩
          rcases r3 with e | img
          · exact hmem3 hc
          · dsimp only at hc
            rw [if_neg (by simp [hpb])] at hc
            exact hmem3 hc
    · have hjf : jsTruthy body.type = false := by
        cases hx : jsTruthy body.type
        · rfl
        · exact absurd hx hjt
      simp [handler, hjf, badReq] at hc
  · simp [handler, hm] at hc

/-- C4: when the body does not request publishing (postToBlogger absent or
false), neither the OAuth token-exchange call nor the blog post-creation
call occurs and the 200 envelope's `bloggerPostUrl` is absent; and whenever
`bloggerPostUrl` is present in a 200 envelope, publishing was requested
(`postToBlogger: true`) and the publish step succeeded with exactly that
url. -/
theorem C4_no_publish (cfg : Config) (w : World) (mth : String)
    (body : InputBody) (hpb : jsTruthyB body.postToBlogger = false) :
    (Call.oauthToken ∉ (handler cfg w ⟨mth, some body⟩).1 ∧
     Call.blogPost ∉ (handler cfg w ⟨mth, some body⟩).1 ∧
     ∀ t h i u, (handler cfg w ⟨mth, some body⟩).2.body = .envelope t h i u →
        u = none) ∧
    (∀ req t h i u', (handler cfg w req).2.body = .envelope t h i (some u') →
        (∃ b, req.body = some b ∧ b.postToBlogger = some true) ∧
        ∃ pid, w.blogResult = .ok (some u') pid) := by
  constructor
  · refine ⟨fun hc => (handler_no_publish_calls cfg w mth body hpb _ hc).1 rfl,
      fun hc => (handler_no_publish_calls cfg w mth body hpb _ hc).2 rfl, ?_⟩
    intro t h i u henv
    rcases (handler_envelope_inv cfg w _ t h i u henv).1 with ⟨b2, hb2, hd⟩
    have hbb : b2 = body := by
      simp only at hb2
      exact (Option.some.injEq _ _ ▸ hb2).symm
    subst hbb
    rcases hd with ⟨_, hu⟩ | ⟨htru, _⟩
    · exact hu
    · rw [hpb] at htru
      exact absurd htru (by simp)
  · intro req t h i u' henv
    rcases (handler_envelope_inv cfg w req t h i (some u') henv).1
      with ⟨b2, hb2, hd⟩
    rcases hd with ⟨_, hu⟩ | ⟨htru, pid, hbr⟩
    · exact absurd hu (by simp)
    · exact ⟨⟨b2, hb2, (jsTruthyB_some_true _).mp htru⟩, ⟨pid, hbr⟩⟩

/-- C4 witness: a concrete non-publishing request performs no token
exchange. -/
theorem C4_no_publish_witness :
    Call.oauthToken ∉
      (handler ⟨none, none, none, none⟩
        ⟨.httpFail 0, .httpFail 0, .error "", .error "", .error "",
          .httpFail none 0, .httpFail none 0⟩
        ⟨"POST", some ⟨some "text", some "x", none, none, none⟩⟩).1 :=
  (C4_no_publish ⟨none, none, none, none⟩
    ⟨.httpFail 0, .httpFail 0, .error "", .error "", .error "",
      .httpFail none 0, .httpFail none 0⟩
    "POST" ⟨some "text", some "x", none, none, none⟩ rfl).1.1

/-- C8: in every 200 response the `html` field is not the summarizer's
html fragment alone: it is the wrapper div embedding the generated image
(src = the `imageDataUrl` field, alt = the stringified `title`, which is
the summarizer's title) concatenated before the summarizer's html fragment
(the stringified `summaryHtml` of the artifact the summarizer returned),
and is strictly longer than that fragment. -/
theorem C8_html_wrapper (cfg : Config) (w : World) (req : ApiRequest)
    (t : Option JsonVal) (h i : String) (u : Option String)
    (henv : (handler cfg w req).2.body = .envelope t h i u) :
    ∃ s : SummaryArtifact,
      (∀ input, (summarizeFinancePortuguese w input).2 = Except.ok s) ∧
      t = s.title ∧
      h = buildHtml i (jsOptToStr s.title) (jsOptToStr s.summaryHtml) ∧
      (jsOptToStr s.summaryHtml).length < h.length := by
  rcases (handler_envelope_inv cfg w req t h i u henv).2 with ⟨s, hins, ht, hh⟩
  refine ⟨s, hins, ht, hh, ?_⟩
  rw [hh]
  exact buildHtml_longer i (jsOptToStr s.title) (jsOptToStr s.summaryHtml)

/-- C8 witness: a concrete successful run; the summarizer's artifact is
title "T" / fragment "<p>x</p>", and the response html is the wrapper
around that fragment. -/
theorem C8_html_wrapper_witness :
    ∃ s : SummaryArtifact,
      (∀ input,
        (summarizeFinancePortuguese
          ⟨.httpFail 0, .httpFail 0, .error "",
            .ok (.parsed (.obj [("title", .str "T"), ("html", .str "<p>x</p>")])),
            .ok (some "B"), .httpFail none 0, .httpFail none 0⟩ input).2 =
          Except.ok s) ∧
      some (JsonVal.str "T") = s.title ∧
      buildHtml "data:image/png;base64,B" "T" "<p>x</p>" =
        buildHtml "data:image/png;base64,B" (jsOptToStr s.title)
          (jsOptToStr s.summaryHtml) ∧
      (jsOptToStr s.summaryHtml).length <
        (buildHtml "data:image/png;base64,B" "T" "<p>x</p>").length :=
  C8_html_wrapper ⟨none, none, none, none⟩
    ⟨.httpFail 0, .httpFail 0, .error "",
      .ok (.parsed (.obj [("title", .str "T"), ("html", .str "<p>x</p>")])),
      .ok (some "B"), .httpFail none 0, .httpFail none 0⟩
    ⟨"POST", some ⟨some "text", some "x", none, none, none⟩⟩
    (some (.str "T"))
    (buildHtml "data:image/png;base64,B" "T" "<p>x</p>")
    "data:image/png;base64,B" none rfl
